import Mathlib

/-!
Shallow embedding of the frame loop and swapchain lifecycle of the
HelloTriangle Vulkan application (src/HelloTriangle/src/HelloTriangleApp.cpp,
src/HelloTriangle/include/HelloTriangle/HelloTriangleApp.h, and the program
entry point in main.cpp).

The embedding models the per-frame state that `drawFrame` reads and writes
(currentFrame, semaphoreIndex, framebufferResized, the in-flight fences and
the swapchain), the Vulkan result codes the code branches on, and the event
trace each call emits (fence waits, acquire, command recording, submit,
present, swapchain rebuild).  GPU progress (fence signalling) is modelled as
a separate nondeterministic step of a transition system, as the Vulkan
runtime performs it asynchronously.
-/

namespace HelloTriangle

/-- MAX_FRAMES_IN_FLIGHT from HelloTriangleApp.h line 21: `constexpr int MAX_FRAMES_IN_FLIGHT = 2;`. -/
def MAX_FRAMES_IN_FLIGHT : Nat := 2

/-- Vulkan result codes the application branches on (`vk::Result`).  The code
inspects eSuccess, eSuboptimalKHR and eErrorOutOfDateKHR explicitly; the other
constructors stand for the remaining non-success codes an acquire or present
call may report (timeout, not-ready, device lost, surface lost). -/
inductive VkResult where
  | eSuccess
  | eTimeout
  | eNotReady
  | eSuboptimalKHR
  | eErrorOutOfDateKHR
  | eErrorDeviceLost
  | eErrorSurfaceLostKHR
  deriving DecidableEq, Repr

/-- The two per-image semaphore arrays created by `createSyncObjects`
(HelloTriangleApp.cpp lines 817-833): `presentCompleteSemaphores[i]` and
`renderFinishedSemaphores[i]`, one of each per swapchain image. -/
inductive Semaphore where
  | presentComplete (i : Nat)
  | renderFinished (i : Nat)
  deriving DecidableEq, Repr

/-- Observable actions of one `drawFrame` call, in program order:
waiting on the slot fence, acquiring an image (signalling a semaphore),
resetting the slot fence, recording the command buffer, submitting
(wait semaphore, signal semaphore, fence slot), presenting (wait semaphore,
image index), and a swapchain rebuild (`recreateSwapChain`). -/
inductive Event where
  | waitFence (slot : Nat)
  | acquire (signalSem : Semaphore)
  | resetFence (slot : Nat)
  | record (slot : Nat)
  | submit (waitSem : Semaphore) (signalSem : Semaphore) (fenceSlot : Nat)
  | present (waitSem : Semaphore) (imageIndex : Nat)
  | rebuild
  deriving DecidableEq, Repr

/-- The mutable state of HelloTriangleApp that `drawFrame` touches
(HelloTriangleApp.h lines 175-191), together with the runtime status of
the in-flight fences and the pending GPU submissions:
* `currentFrame`, `semaphoreIndex`, `framebufferResized` are the data
  members of those names;
* `fenceSignaled slot` is the signaled status of `inFlightFences[slot]`;
* `outstanding` lists the frame slots whose submissions were handed to the
  queue but whose fence the GPU has not yet signaled, in submission order;
* `numImages` is `swapChainImages.size()`, which equals the length of both
  semaphore arrays (`createSyncObjects` creates one pair per image);
* `swapchainGen` counts swapchain rebuilds, so that a rebuild is visible as
  a state change. -/
structure AppState where
  currentFrame : Nat
  semaphoreIndex : Nat
  framebufferResized : Bool
  fenceSignaled : Nat → Bool
  outstanding : List Nat
  numImages : Nat
  swapchainGen : Nat

/-- Environment inputs of one `drawFrame` call: the result and image index
returned by `acquireNextImage` and the result returned by `presentKHR`. -/
structure FrameInput where
  acquireResult : VkResult
  imageIndex : Nat
  presentResult : VkResult
  deriving DecidableEq, Repr

/-- Result of one `drawFrame` call: the state after the call, the events it
performed, and the message of the `std::runtime_error` it threw, if any. -/
structure FrameOutput where
  state : AppState
  events : List Event
  error : Option String

/-- Pointwise update of a fence-status map. -/
def setFence (f : Nat → Bool) (i : Nat) (b : Bool) : Nat → Bool :=
  fun j => if j = i then b else f j

/-- HelloTriangleApp::drawFrame (HelloTriangleApp.cpp lines 709-815),
translated line by line:
1. wait for `inFlightFences[currentFrame]`;
2. acquire, signalling `presentCompleteSemaphores[semaphoreIndex]`;
3. if the result is eErrorOutOfDateKHR or eSuboptimalKHR, or
   `framebufferResized` is set: clear the flag, recreate the swapchain,
   return (line 723-728);
4. otherwise, if the result is not eSuccess and not eSuboptimalKHR, throw
   "failed to acquire swap chain image!" (line 730-733);
5. reset `inFlightFences[currentFrame]`, reset and record
   `commandBuffers[currentFrame]` (lines 735-737);
6. submit, waiting on `presentCompleteSemaphores[semaphoreIndex]`,
   signalling `renderFinishedSemaphores[imageIndex]`, with fence
   `inFlightFences[currentFrame]` (lines 759-785);
7. present, waiting on `renderFinishedSemaphores[semaphoreIndex]`
   (lines 796-805);
8. on present result eErrorOutOfDateKHR or eSuboptimalKHR, or when
   `framebufferResized` is set: clear the flag and recreate the swapchain;
   otherwise on a non-eSuccess result throw
   "failed to present swap chain image!" (lines 806-812);
9. advance `semaphoreIndex` modulo `presentCompleteSemaphores.size()` and
   `currentFrame` modulo MAX_FRAMES_IN_FLIGHT (lines 813-814). -/
def drawFrame (s : AppState) (inp : FrameInput) : FrameOutput :=
  let result := inp.acquireResult
  let imageIndex := inp.imageIndex
  let evs := [Event.waitFence s.currentFrame,
              Event.acquire (Semaphore.presentComplete s.semaphoreIndex)]
  if result = VkResult.eErrorOutOfDateKHR ∨ result = VkResult.eSuboptimalKHR ∨
      s.framebufferResized then
    { state := { s with framebufferResized := false, swapchainGen := s.swapchainGen + 1 },
      events := evs ++ [Event.rebuild],
      error := none }
  else if result ≠ VkResult.eSuccess ∧ result ≠ VkResult.eSuboptimalKHR then
    { state := s, events := evs, error := some "failed to acquire swap chain image!" }
  else
    let s2 : AppState :=
      { s with fenceSignaled := setFence s.fenceSignaled s.currentFrame false,
               outstanding := s.outstanding ++ [s.currentFrame] }
    let evs := evs ++
      [Event.resetFence s.currentFrame,
       Event.record s.currentFrame,
       Event.submit (Semaphore.presentComplete s.semaphoreIndex)
                    (Semaphore.renderFinished imageIndex) s.currentFrame,
       Event.present (Semaphore.renderFinished s.semaphoreIndex) imageIndex]
    let presult := inp.presentResult
    if presult = VkResult.eErrorOutOfDateKHR ∨ presult = VkResult.eSuboptimalKHR ∨
        s2.framebufferResized then
      { state :=
          { s2 with framebufferResized := false, swapchainGen := s2.swapchainGen + 1,
                    semaphoreIndex := (s2.semaphoreIndex + 1) % s2.numImages,
                    currentFrame := (s2.currentFrame + 1) % MAX_FRAMES_IN_FLIGHT },
        events := evs ++ [Event.rebuild],
        error := none }
    else if presult ≠ VkResult.eSuccess then
      { state := s2, events := evs, error := some "failed to present swap chain image!" }
    else
      { state :=
          { s2 with semaphoreIndex := (s2.semaphoreIndex + 1) % s2.numImages,
                    currentFrame := (s2.currentFrame + 1) % MAX_FRAMES_IN_FLIGHT },
        events := evs,
        error := none }

/-- State after `createSyncObjects` and member initialization
(HelloTriangleApp.h lines 181-191, HelloTriangleApp.cpp lines 817-833):
`semaphoreIndex = 0`, `currentFrame = 0`, `framebufferResized = false`,
every in-flight fence created signaled (`vk::FenceCreateFlagBits::eSignaled`),
no submission pending. -/
def initialState (numImages : Nat) : AppState :=
  { currentFrame := 0
    semaphoreIndex := 0
    framebufferResized := false
    fenceSignaled := fun _ => true
    outstanding := []
    numImages := numImages
    swapchainGen := 0 }

/-- GPU completion of the pending submission of slot `slot`: the Vulkan
runtime finishes executing the command buffer and signals the fence that
was attached at submit time.  This is the asynchronous counterpart of
`queue.submit(submitInfo, *inFlightFences[currentFrame])`. -/
def gpuComplete (s : AppState) (slot : Nat) : AppState :=
  { s with outstanding := s.outstanding.erase slot,
           fenceSignaled := setFence s.fenceSignaled slot true }

/-- One step of the frame-loop transition system: either the GPU completes
a pending submission, or the CPU runs one `drawFrame` cycle.  The `frame`
step requires the current slot fence to be signaled, because the
`waitForFences` loop at the top of `drawFrame` blocks until it is. -/
inductive Step : AppState → AppState → Prop where
  | gpu (s : AppState) (slot : Nat) (hmem : slot ∈ s.outstanding) :
      Step s (gpuComplete s slot)
  | frame (s : AppState) (inp : FrameInput)
      (hwait : s.fenceSignaled s.currentFrame = true) :
      Step s (drawFrame s inp).state

/-- States reachable from the freshly initialized application. -/
inductive Reachable (numImages : Nat) : AppState → Prop where
  | init : Reachable numImages (initialState numImages)
  | step {s s' : AppState} : Reachable numImages s → Step s s' →
      Reachable numImages s'

/-- Observable actions of HelloTriangleApp::recreateSwapChain: reading the
framebuffer size, waiting for window events, draining the device
(`device.waitIdle()`), and the destroy/recreate sequence
(`cleanupSwapChain`, `createSwapChain`, `createImageViews`). -/
inductive RebuildEvent where
  | poll (width height : Int)
  | waitEvents
  | deviceWaitIdle
  | cleanupSwapChain
  | createSwapChain
  | createImageViews
  deriving DecidableEq, Repr

/-- The `while (width == 0 || height == 0)` loop of recreateSwapChain
(HelloTriangleApp.cpp lines 839-842): given the last size read and the
remaining framebuffer-size readings the window will report, keep re-reading
and waiting for events until both dimensions are nonzero.  Returns the
events of the loop and the size at which the loop exited; `none` when the
readings are exhausted while the size is still zero (the real loop would
still be blocked). -/
def sizeWaitLoop : Int → Int → List (Int × Int) → Option (List RebuildEvent × Int × Int)
  | w, h, readings =>
    if w = 0 ∨ h = 0 then
      match readings with
      | [] => none
      | (w2, h2) :: rest =>
        match sizeWaitLoop w2 h2 rest with
        | none => none
        | some (evs, fw, fh) =>
            some (RebuildEvent.poll w2 h2 :: RebuildEvent.waitEvents :: evs, fw, fh)
    else
      some ([], w, h)

/-- HelloTriangleApp::recreateSwapChain (HelloTriangleApp.cpp lines 835-849):
read the framebuffer size, loop (re-reading and waiting for events) while
either dimension is zero, then `device.waitIdle()`, `cleanupSwapChain()`,
`createSwapChain()`, `createImageViews()`.  The argument is the sequence of
sizes successive `glfwGetFramebufferSize` calls report; the result carries
the event trace and the size at which the function proceeded. -/
def recreateSwapChain (readings : List (Int × Int)) :
    Option (List RebuildEvent × Int × Int) :=
  match readings with
  | [] => none
  | (w, h) :: rest =>
    match sizeWaitLoop w h rest with
    | none => none
    | some (evs, fw, fh) =>
        some (RebuildEvent.poll w h :: evs ++
                [RebuildEvent.deviceWaitIdle, RebuildEvent.cleanupSwapChain,
                 RebuildEvent.createSwapChain, RebuildEvent.createImageViews],
              fw, fh)

/-- Observable actions of HelloTriangleApp::Run, mainLoop and cleanup:
window/Vulkan setup, one `glfwPollEvents` plus one `drawFrame` call per
loop iteration, the `device.waitIdle()` drain after the loop, and the
resource release in `cleanup`. -/
inductive LoopEvent where
  | initWindow
  | initVulkan
  | pollEvents
  | drawFrameCall
  | deviceWaitIdle
  | cleanup
  deriving DecidableEq, Repr

/-- HelloTriangleApp::mainLoop (HelloTriangleApp.cpp lines 174-183):
`while (!glfwWindowShouldClose(window)) { glfwPollEvents(); drawFrame(); }`
followed by `device.waitIdle()`.  The argument is the sequence of values
successive `glfwWindowShouldClose` calls report; `none` when the window
never reports close within the given readings (the real loop would still be
running). -/
def mainLoop : List Bool → Option (List LoopEvent)
  | [] => none
  | shouldClose :: rest =>
    if shouldClose then
      some [LoopEvent.deviceWaitIdle]
    else
      match mainLoop rest with
      | none => none
      | some evs => some (LoopEvent.pollEvents :: LoopEvent.drawFrameCall :: evs)

/-- HelloTriangleApp::Run (HelloTriangleApp.cpp lines 141-147):
`initWindow(); initVulkan(); mainLoop(); cleanup();`. -/
def runApp (readings : List Bool) : Option (List LoopEvent) :=
  match mainLoop readings with
  | none => none
  | some evs => some (LoopEvent.initWindow :: LoopEvent.initVulkan :: evs ++
                        [LoopEvent.cleanup])

/-- Body events of `k` iterations of the main loop. -/
def loopIterations : Nat → List LoopEvent
  | 0 => []
  | k + 1 => LoopEvent.pollEvents :: LoopEvent.drawFrameCall :: loopIterations k

/-- The fields of `vk::SurfaceCapabilitiesKHR` that the image-count
computation of createSwapChain reads. -/
structure SurfaceCapabilities where
  minImageCount : Nat
  maxImageCount : Nat
  deriving DecidableEq, Repr

/-- The image-count computation of HelloTriangleApp::createSwapChain
(HelloTriangleApp.cpp lines 83-84):
`auto minImageCount = std::max(3u, surfaceCapabilities.minImageCount);`
`minImageCount = (surfaceCapabilities.maxImageCount > 0 && minImageCount > surfaceCapabilities.maxImageCount) ? surfaceCapabilities.maxImageCount : minImageCount;`. -/
def createSwapChainImageCount (caps : SurfaceCapabilities) : Nat :=
  let minImageCount := max 3 caps.minImageCount
  if caps.maxImageCount > 0 ∧ minImageCount > caps.maxImageCount then
    caps.maxImageCount
  else
    minImageCount

/-- Exit codes of the program entry point (`<cstdlib>`). -/
def EXIT_SUCCESS : Nat := 0

/-- Exit code returned by main when `app.Run()` throws. -/
def EXIT_FAILURE : Nat := 1

/-- The program entry point (main.cpp): `app.Run()` inside a try block;
a caught `std::exception` is reported via `std::cerr` and the process exits
with EXIT_FAILURE, otherwise it exits with EXIT_SUCCESS.  The input is the
outcome of `app.Run()` (normal return, or the message of the exception that
unwound to main); the output is the exit code and the reported message. -/
def mainEntry : Except String Unit → Nat × Option String
  | Except.ok _ => (EXIT_SUCCESS, none)
  | Except.error msg => (EXIT_FAILURE, some msg)

/-- True on the events of `drawFrame` that record, submit or present draw
work for the cycle. -/
def isDrawWork : Event → Bool
  | Event.record _ => true
  | Event.submit _ _ _ => true
  | Event.present _ _ => true
  | _ => false

/-- True exactly on the swapchain-rebuild event. -/
def isRebuild : Event → Bool
  | Event.rebuild => true
  | _ => false

/-- The swapchain-rebuild condition tested after acquire
(HelloTriangleApp.cpp line 723). -/
def acquireRecoverable (s : AppState) (inp : FrameInput) : Prop :=
  inp.acquireResult = VkResult.eErrorOutOfDateKHR ∨
  inp.acquireResult = VkResult.eSuboptimalKHR ∨
  s.framebufferResized = true

instance (s : AppState) (inp : FrameInput) : Decidable (acquireRecoverable s inp) := by
  unfold acquireRecoverable
  infer_instance

/-- Invariant of the frame-loop transition system: the frame slot is in
range, no slot has two pending submissions, and each pending submission is
on an in-range slot whose fence is unsignaled. -/
def FrameInv (s : AppState) : Prop :=
  s.currentFrame < MAX_FRAMES_IN_FLIGHT ∧
  s.outstanding.Nodup ∧
  ∀ slot ∈ s.outstanding,
    slot < MAX_FRAMES_IN_FLIGHT ∧ s.fenceSignaled slot = false

/-- Concrete state used to evaluate `drawFrame` at specific inputs:
a freshly initialized application with a three-image swapchain. -/
def sampleState : AppState := initialState 3

/-- Concrete state with the framebufferResized flag set. -/
def sampleResizedState : AppState :=
  { initialState 3 with framebufferResized := true }

/-- A resize or stale-swapchain signal occurs during a `drawFrame` cycle:
either the rebuild condition after acquire holds (out-of-date or suboptimal
acquire result, or framebufferResized set, line 723), or acquire succeeded
and the present result is out-of-date or suboptimal (line 806). -/
def cycleSignal (s : AppState) (inp : FrameInput) : Prop :=
  acquireRecoverable s inp ∨
  (inp.acquireResult = VkResult.eSuccess ∧
    (inp.presentResult = VkResult.eErrorOutOfDateKHR ∨
     inp.presentResult = VkResult.eSuboptimalKHR))

instance (s : AppState) (inp : FrameInput) : Decidable (cycleSignal s inp) := by
  unfold cycleSignal
  infer_instance

/-- A list of naturals without duplicates whose members are all below `n`
has at most `n` elements. -/
theorem length_le_of_nodup_of_lt (l : List Nat) (n : Nat) (hnd : l.Nodup)
    (hlt : ∀ x ∈ l, x < n) : l.length ≤ n := by
  classical
  have hsub : l.toFinset ⊆ Finset.range n := by
    intro x hx
    rw [List.mem_toFinset] at hx
    exact Finset.mem_range.mpr (hlt x hx)
  have hcard := Finset.card_le_card hsub
  rwa [List.toFinset_card_of_nodup hnd, Finset.card_range] at hcard

/-- The frame-loop invariant holds in the initial state. -/
theorem frameInv_initial (n : Nat) : FrameInv (initialState n) := by
  refine ⟨?_, ?_, ?_⟩
  · show (0 : Nat) < MAX_FRAMES_IN_FLIGHT
    decide
  · exact List.nodup_nil
  · intro slot hmem
    simp [initialState] at hmem

/-- The frame-loop invariant is preserved by GPU completion steps. -/
theorem frameInv_gpu (s : AppState) (slot : Nat) (hinv : FrameInv s) :
    FrameInv (gpuComplete s slot) := by
  obtain ⟨hcf, hnd, hout⟩ := hinv
  refine ⟨hcf, hnd.erase slot, ?_⟩
  intro x hx
  have hne : x ≠ slot ∧ x ∈ s.outstanding := (hnd.mem_erase_iff).mp hx
  refine ⟨(hout x hne.2).1, ?_⟩
  simp only [gpuComplete, setFence]
  rw [if_neg hne.1]
  exact (hout x hne.2).2

/-- The frame-loop invariant is preserved by `drawFrame`, provided the
current slot fence is signaled on entry (which the `waitForFences` loop
guarantees). -/
theorem frameInv_frame (s : AppState) (inp : FrameInput)
    (hinv : FrameInv s) (hwait : s.fenceSignaled s.currentFrame = true) :
    FrameInv (drawFrame s inp).state := by
  obtain ⟨hcf, hnd, hout⟩ := hinv
  have hnotmem : s.currentFrame ∉ s.outstanding := by
    intro hmem
    have hfalse := (hout _ hmem).2
    rw [hwait] at hfalse
    exact Bool.noConfusion hfalse
  have hsubmit : FrameInv
      { s with fenceSignaled := setFence s.fenceSignaled s.currentFrame false,
               outstanding := s.outstanding ++ [s.currentFrame] } := by
    refine ⟨hcf, ?_, ?_⟩
    · rw [List.nodup_append]
      exact ⟨hnd, List.nodup_singleton _, by
        intro x hx hx'
        rw [List.mem_singleton] at hx'
        exact hnotmem (hx' ▸ hx)⟩
    · intro x hx
      rw [List.mem_append, List.mem_singleton] at hx
      rcases hx with hx | hx
      · refine ⟨(hout x hx).1, ?_⟩
        simp only [setFence]
        rw [if_neg (fun heq : x = s.currentFrame => hnotmem (heq ▸ hx))]
        exact (hout x hx).2
      · subst hx
        refine ⟨hcf, ?_⟩
        simp [setFence]
  unfold drawFrame
  dsimp only
  split
  · exact ⟨hcf, hnd, hout⟩
  · split
    · exact ⟨hcf, hnd, hout⟩
    · split
      · refine ⟨?_, hsubmit.2.1, hsubmit.2.2⟩
        exact Nat.mod_lt _ (by decide)
      · split
        · exact hsubmit
        · refine ⟨?_, hsubmit.2.1, hsubmit.2.2⟩
          exact Nat.mod_lt _ (by decide)

/-- Every reachable state satisfies the frame-loop invariant. -/
theorem frameInv_reachable (n : Nat) (s : AppState) (h : Reachable n s) :
    FrameInv s := by
  induction h with
  | init => exact frameInv_initial n
  | step _ hstep ih =>
    cases hstep with
    | gpu slot hmem => exact frameInv_gpu _ slot ih
    | frame inp hwait => exact frameInv_frame _ inp ih hwait

/-- When the size-wait loop of recreateSwapChain terminates, the size at
which it exits is nonzero in both dimensions, and the loop performed only
size reads and event waits. -/
theorem sizeWaitLoop_spec (readings : List (Int × Int)) : ∀ (w h : Int)
    (evs : List RebuildEvent) (fw fh : Int),
    sizeWaitLoop w h readings = some (evs, fw, fh) →
    fw ≠ 0 ∧ fh ≠ 0 ∧
    ∀ e ∈ evs, (∃ a b, e = RebuildEvent.poll a b) ∨ e = RebuildEvent.waitEvents := by
  induction readings with
  | nil =>
    intro w h evs fw fh hsome
    unfold sizeWaitLoop at hsome
    split at hsome
    · exact absurd hsome (by simp)
    · rename_i hnz
      push_neg at hnz
      simp only [Option.some.injEq, Prod.mk.injEq] at hsome
      obtain ⟨hevs, hw, hh⟩ := hsome
      subst hw
      subst hh
      subst hevs
      exact ⟨hnz.1, hnz.2, by simp⟩
  | cons head rest ih =>
    intro w h evs fw fh hsome
    unfold sizeWaitLoop at hsome
    split at hsome
    · obtain ⟨w2, h2⟩ := head
      dsimp only at hsome
      cases hrec : sizeWaitLoop w2 h2 rest with
      | none => rw [hrec] at hsome; exact absurd hsome (by simp)
      | some v =>
        obtain ⟨evs', fw', fh'⟩ := v
        rw [hrec] at hsome
        simp only [Option.some.injEq, Prod.mk.injEq] at hsome
        obtain ⟨hevs, hw, hh⟩ := hsome
        subst hw
        subst hh
        obtain ⟨hfw, hfh, hall⟩ := ih w2 h2 evs' _ _ hrec
        refine ⟨hfw, hfh, ?_⟩
        subst hevs
        intro e he
        rcases he with _ | ⟨_, he⟩
        · exact Or.inl ⟨w2, h2, rfl⟩
        · rcases he with _ | ⟨_, he⟩
          · exact Or.inr rfl
          · exact hall e he
    · rename_i hnz
      push_neg at hnz
      simp only [Option.some.injEq, Prod.mk.injEq] at hsome
      obtain ⟨hevs, hw, hh⟩ := hsome
      subst hw
      subst hh
      subst hevs
      exact ⟨hnz.1, hnz.2, by simp⟩

/-- When the main loop terminates, a close signal was read, and the loop
performed some number of poll/draw iterations followed by the device
drain; when no close signal is read, the loop does not terminate. -/
theorem mainLoop_spec (readings : List Bool) :
    (∀ evs, mainLoop readings = some evs →
      true ∈ readings ∧
      ∃ k, evs = loopIterations k ++ [LoopEvent.deviceWaitIdle]) ∧
    (true ∉ readings → mainLoop readings = none) := by
  induction readings with
  | nil =>
    constructor
    · intro evs hsome
      exact absurd hsome (by simp [mainLoop])
    · intro _
      rfl
  | cons head rest ih =>
    constructor
    · intro evs hsome
      unfold mainLoop at hsome
      by_cases hh : head = true
      · subst hh
        rw [if_pos rfl] at hsome
        simp only [Option.some.injEq] at hsome
        subst hsome
        exact ⟨List.mem_cons_self _ _, 0, rfl⟩
      · rw [Bool.not_eq_true] at hh
        subst hh
        rw [if_neg (by simp)] at hsome
        cases hrec : mainLoop rest with
        | none => rw [hrec] at hsome; exact absurd hsome (by simp)
        | some evs' =>
          rw [hrec] at hsome
          simp only [Option.some.injEq] at hsome
          obtain ⟨hmem, k, hk⟩ := (ih.1) evs' hrec
          subst hsome
          subst hk
          exact ⟨List.mem_cons_of_mem _ hmem, k + 1, rfl⟩
    · intro hnot
      rw [List.mem_cons, not_or] at hnot
      unfold mainLoop
      rw [if_neg (by simpa using hnot.1), ih.2 hnot.2]

/-- C1 (code bug): the claim states that present waits on exactly the
semaphore that the preceding submit signals.  Evaluating `drawFrame` at a
cycle with `semaphoreIndex = 0` in which acquire returns image index 1
shows the code violating this: the submit is gated on the acquire
semaphore `presentCompleteSemaphores[0]` and signals
`renderFinishedSemaphores[1]` (indexed by the acquired image), but the
present request waits on `renderFinishedSemaphores[0]` (indexed by
`semaphoreIndex`), a different semaphore that no pending submit signals. -/
theorem drawFrame_present_waits_wrong_semaphore :
    (drawFrame sampleState ⟨VkResult.eSuccess, 1, VkResult.eSuccess⟩).events =
      [Event.waitFence 0,
       Event.acquire (Semaphore.presentComplete 0),
       Event.resetFence 0,
       Event.record 0,
       Event.submit (Semaphore.presentComplete 0) (Semaphore.renderFinished 1) 0,
       Event.present (Semaphore.renderFinished 0) 1] ∧
    Semaphore.renderFinished 0 ≠ Semaphore.renderFinished 1 := by
  decide

/-- C2: whenever acquire reports the swapchain out-of-date or the
framebufferResized flag is set, `drawFrame` performs a swapchain rebuild
and returns normally without recording, submitting or presenting any draw
work for the cycle. -/
theorem drawFrame_stale_or_resized_rebuilds_without_drawing
    (s : AppState) (inp : FrameInput)
    (h : inp.acquireResult = VkResult.eErrorOutOfDateKHR ∨
         s.framebufferResized = true) :
    (drawFrame s inp).error = none ∧
    Event.rebuild ∈ (drawFrame s inp).events ∧
    ∀ e ∈ (drawFrame s inp).events, isDrawWork e = false := by
  have hc : inp.acquireResult = VkResult.eErrorOutOfDateKHR ∨
      inp.acquireResult = VkResult.eSuboptimalKHR ∨ s.framebufferResized = true := by
    rcases h with h | h
    · exact Or.inl h
    · exact Or.inr (Or.inr h)
  unfold drawFrame
  dsimp only
  rw [if_pos hc]
  refine ⟨rfl, by simp, ?_⟩
  intro e he
  rcases he with _ | ⟨_, _ | ⟨_, _ | ⟨_, he⟩⟩⟩
  · rfl
  · rfl
  · rfl
  · cases he

/-- Witness for C2 at a concrete input: a fresh application state whose
acquire call reports the swapchain out-of-date. -/
theorem drawFrame_stale_or_resized_rebuilds_without_drawing_witness :
    (drawFrame sampleState ⟨VkResult.eErrorOutOfDateKHR, 0, VkResult.eSuccess⟩).error = none ∧
    Event.rebuild ∈ (drawFrame sampleState ⟨VkResult.eErrorOutOfDateKHR, 0, VkResult.eSuccess⟩).events ∧
    ∀ e ∈ (drawFrame sampleState ⟨VkResult.eErrorOutOfDateKHR, 0, VkResult.eSuccess⟩).events,
      isDrawWork e = false :=
  drawFrame_stale_or_resized_rebuilds_without_drawing sampleState
    ⟨VkResult.eErrorOutOfDateKHR, 0, VkResult.eSuccess⟩ (Or.inl rfl)

/-- C9: on the recoverable acquire path (out-of-date or suboptimal acquire
result, or framebufferResized set), `drawFrame` returns normally leaving
the frame-loop state unchanged except for clearing framebufferResized and
rebuilding the swapchain: the slot fences keep their values (in particular
the current slot's fence is not reset and stays signaled), no new
submission is made, and neither currentFrame nor semaphoreIndex advances,
so the next call reuses the same slot and its fence wait returns at once. -/
theorem drawFrame_recoverable_acquire_effect (s : AppState) (inp : FrameInput)
    (h : acquireRecoverable s inp) :
    (drawFrame s inp).state =
      { s with framebufferResized := false, swapchainGen := s.swapchainGen + 1 } ∧
    (drawFrame s inp).state.currentFrame = s.currentFrame ∧
    (drawFrame s inp).state.semaphoreIndex = s.semaphoreIndex ∧
    (drawFrame s inp).state.fenceSignaled = s.fenceSignaled ∧
    (drawFrame s inp).state.outstanding = s.outstanding ∧
    (drawFrame s inp).error = none := by
  unfold acquireRecoverable at h
  unfold drawFrame
  dsimp only
  rw [if_pos h]
  exact ⟨rfl, rfl, rfl, rfl, rfl, rfl⟩

/-- Witness for C9 at a concrete input: a fresh application state whose
acquire call reports the swapchain out-of-date. -/
theorem drawFrame_recoverable_acquire_effect_witness :
    (drawFrame sampleState ⟨VkResult.eErrorOutOfDateKHR, 0, VkResult.eSuccess⟩).state =
      { sampleState with framebufferResized := false,
                         swapchainGen := sampleState.swapchainGen + 1 } ∧
    (drawFrame sampleState ⟨VkResult.eErrorOutOfDateKHR, 0, VkResult.eSuccess⟩).state.currentFrame =
      sampleState.currentFrame ∧
    (drawFrame sampleState ⟨VkResult.eErrorOutOfDateKHR, 0, VkResult.eSuccess⟩).state.semaphoreIndex =
      sampleState.semaphoreIndex ∧
    (drawFrame sampleState ⟨VkResult.eErrorOutOfDateKHR, 0, VkResult.eSuccess⟩).state.fenceSignaled =
      sampleState.fenceSignaled ∧
    (drawFrame sampleState ⟨VkResult.eErrorOutOfDateKHR, 0, VkResult.eSuccess⟩).state.outstanding =
      sampleState.outstanding ∧
    (drawFrame sampleState ⟨VkResult.eErrorOutOfDateKHR, 0, VkResult.eSuccess⟩).error = none :=
  drawFrame_recoverable_acquire_effect sampleState
    ⟨VkResult.eErrorOutOfDateKHR, 0, VkResult.eSuccess⟩ (Or.inl rfl)

/-- C3: in every reachable state of the frame loop, at most
MAX_FRAMES_IN_FLIGHT command buffers are outstanding (submitted but not yet
fenced-complete).  This holds because each `drawFrame` first blocks on the
current slot's fence, so a slot never carries two pending submissions. -/
theorem outstanding_submissions_le_max_frames (n : Nat) (s : AppState)
    (h : Reachable n s) : s.outstanding.length ≤ MAX_FRAMES_IN_FLIGHT := by
  obtain ⟨_, hnd, hout⟩ := frameInv_reachable n s h
  exact length_le_of_nodup_of_lt _ _ hnd (fun x hx => (hout x hx).1)

/-- Witness for C3 at a concrete input: the initial state of a three-image
swapchain is reachable and has no outstanding submission. -/
theorem outstanding_submissions_le_max_frames_witness :
    (initialState 3).outstanding.length ≤ MAX_FRAMES_IN_FLIGHT :=
  outstanding_submissions_le_max_frames 3 (initialState 3) Reachable.init

/-- C4: the in-flight frame slot index starts at 0, stays in
[0, MAX_FRAMES_IN_FLIGHT) in every reachable state, and every `drawFrame`
cycle that runs to completion (returns without throwing and reaches the
present request) advances it by one modulo MAX_FRAMES_IN_FLIGHT. -/
theorem currentFrame_cycles_in_range (n : Nat) :
    (initialState n).currentFrame = 0 ∧
    (∀ s, Reachable n s → s.currentFrame < MAX_FRAMES_IN_FLIGHT) ∧
    (∀ (s : AppState) (inp : FrameInput),
      (drawFrame s inp).error = none →
      (∃ w i, Event.present w i ∈ (drawFrame s inp).events) →
      (drawFrame s inp).state.currentFrame =
        (s.currentFrame + 1) % MAX_FRAMES_IN_FLIGHT) := by
  refine ⟨rfl, fun s hr => (frameInv_reachable n s hr).1, ?_⟩
  intro s inp
  unfold drawFrame
  dsimp only
  split
  · intro _ hpres
    exact absurd hpres (by simp)
  · split
    · intro herr _
      exact absurd herr (by simp)
    · split
      · intro _ _
        rfl
      · split
        · intro herr _
          exact absurd herr (by simp)
        · intro _ _
          rfl

/-- Witness for C4 at concrete inputs: the initial slot index of a
three-image swapchain is 0 and in range, and a fully successful cycle
advances it by one modulo MAX_FRAMES_IN_FLIGHT. -/
theorem currentFrame_cycles_in_range_witness :
    (initialState 3).currentFrame = 0 ∧
    (initialState 3).currentFrame < MAX_FRAMES_IN_FLIGHT ∧
    (drawFrame sampleState ⟨VkResult.eSuccess, 1, VkResult.eSuccess⟩).state.currentFrame =
      (sampleState.currentFrame + 1) % MAX_FRAMES_IN_FLIGHT :=
  ⟨(currentFrame_cycles_in_range 3).1,
   (currentFrame_cycles_in_range 3).2.1 (initialState 3) Reachable.init,
   (currentFrame_cycles_in_range 3).2.2 sampleState
     ⟨VkResult.eSuccess, 1, VkResult.eSuccess⟩ (by decide)
     ⟨Semaphore.renderFinished 0, 1, by decide⟩⟩

/-- C5: when recreateSwapChain runs to completion, the size at which it
proceeded is nonzero in both dimensions, and everything it did before the
`device.waitIdle()` drain was reading the framebuffer size and waiting for
window events; the destroy/recreate sequence (cleanupSwapChain,
createSwapChain, createImageViews) comes only after that drain. -/
theorem recreateSwapChain_nonzero_then_drain (readings : List (Int × Int))
    (evs : List RebuildEvent) (fw fh : Int)
    (hsome : recreateSwapChain readings = some (evs, fw, fh)) :
    fw ≠ 0 ∧ fh ≠ 0 ∧
    ∃ pre, evs = pre ++ [RebuildEvent.deviceWaitIdle, RebuildEvent.cleanupSwapChain,
                         RebuildEvent.createSwapChain, RebuildEvent.createImageViews] ∧
      ∀ e ∈ pre, (∃ a b, e = RebuildEvent.poll a b) ∨ e = RebuildEvent.waitEvents := by
  cases readings with
  | nil => exact absurd hsome (by simp [recreateSwapChain])
  | cons head rest =>
    obtain ⟨w, h0⟩ := head
    unfold recreateSwapChain at hsome
    dsimp only at hsome
    cases hrec : sizeWaitLoop w h0 rest with
    | none => rw [hrec] at hsome; exact absurd hsome (by simp)
    | some v =>
      obtain ⟨evs', fw', fh'⟩ := v
      rw [hrec] at hsome
      simp only [Option.some.injEq, Prod.mk.injEq] at hsome
      obtain ⟨hevs, hfw, hfh⟩ := hsome
      obtain ⟨h1, h2, hall⟩ := sizeWaitLoop_spec rest w h0 evs' _ _ hrec
      subst hfw
      subst hfh
      refine ⟨h1, h2, RebuildEvent.poll w h0 :: evs', ?_, ?_⟩
      · rw [hevs]
      · intro e he
        rcases he with _ | ⟨_, he⟩
        · exact Or.inl ⟨w, h0, rfl⟩
        · exact hall e he

/-- Witness for C5 at a concrete input: the window first reports size
(0, 0) and then (800, 600). -/
theorem recreateSwapChain_nonzero_then_drain_witness :
    (800 : Int) ≠ 0 ∧ (600 : Int) ≠ 0 ∧
    ∃ pre, [RebuildEvent.poll 0 0, RebuildEvent.poll 800 600, RebuildEvent.waitEvents,
            RebuildEvent.deviceWaitIdle, RebuildEvent.cleanupSwapChain,
            RebuildEvent.createSwapChain, RebuildEvent.createImageViews] =
      pre ++ [RebuildEvent.deviceWaitIdle, RebuildEvent.cleanupSwapChain,
              RebuildEvent.createSwapChain, RebuildEvent.createImageViews] ∧
      ∀ e ∈ pre, (∃ a b, e = RebuildEvent.poll a b) ∨ e = RebuildEvent.waitEvents :=
  recreateSwapChain_nonzero_then_drain [(0, 0), (800, 600)]
    [RebuildEvent.poll 0 0, RebuildEvent.poll 800 600, RebuildEvent.waitEvents,
     RebuildEvent.deviceWaitIdle, RebuildEvent.cleanupSwapChain,
     RebuildEvent.createSwapChain, RebuildEvent.createImageViews] 800 600 (by decide)

/-- C6 (counterexample): the claim says every non-success result of acquire
other than the two recoverable conditions raises a fatal error.  With the
framebufferResized flag set, however, a cycle whose acquire reports
eErrorDeviceLost (a fatal device-level error) takes the rebuild branch:
no error is raised and a swapchain rebuild happens instead. -/
theorem drawFrame_fatal_result_swallowed_when_resized :
    (drawFrame sampleResizedState ⟨VkResult.eErrorDeviceLost, 0, VkResult.eSuccess⟩).error = none ∧
    (drawFrame sampleResizedState
      ⟨VkResult.eErrorDeviceLost, 0, VkResult.eSuccess⟩).events.countP isRebuild = 1 := by
  decide

/-- C6 (amended): when the framebufferResized flag is clear, exactly the two
result conditions out-of-date and suboptimal are recoverable at acquire and
present and lead to a swapchain rebuild instead of an error; every other
non-success result of acquire or present raises a fatal error, and the
program entry point maps such an error to a reported message and a failure
exit status. -/
theorem recoverable_results_exactly_two (s : AppState) (inp : FrameInput)
    (hfb : s.framebufferResized = false) :
    ((drawFrame s inp).error.isSome = true ↔
      (inp.acquireResult ≠ VkResult.eSuccess ∧
       inp.acquireResult ≠ VkResult.eErrorOutOfDateKHR ∧
       inp.acquireResult ≠ VkResult.eSuboptimalKHR) ∨
      (inp.acquireResult = VkResult.eSuccess ∧
       inp.presentResult ≠ VkResult.eSuccess ∧
       inp.presentResult ≠ VkResult.eErrorOutOfDateKHR ∧
       inp.presentResult ≠ VkResult.eSuboptimalKHR)) ∧
    ((drawFrame s inp).events.countP isRebuild = 1 ↔
      (inp.acquireResult = VkResult.eErrorOutOfDateKHR ∨
       inp.acquireResult = VkResult.eSuboptimalKHR) ∨
      (inp.acquireResult = VkResult.eSuccess ∧
        (inp.presentResult = VkResult.eErrorOutOfDateKHR ∨
         inp.presentResult = VkResult.eSuboptimalKHR))) ∧
    (∀ msg, mainEntry (Except.error msg) = (EXIT_FAILURE, some msg)) := by
  obtain ⟨ar, ii, pr⟩ := inp
  cases ar <;> cases pr <;>
    simp [drawFrame, hfb, mainEntry, isRebuild]

/-- Witness for the amended C6 at a concrete input: a cycle with the resize
flag clear whose acquire reports a lost device. -/
theorem recoverable_results_exactly_two_witness :
    ((drawFrame sampleState ⟨VkResult.eErrorDeviceLost, 0, VkResult.eSuccess⟩).error.isSome = true ↔
      ((VkResult.eErrorDeviceLost ≠ VkResult.eSuccess ∧
        VkResult.eErrorDeviceLost ≠ VkResult.eErrorOutOfDateKHR ∧
        VkResult.eErrorDeviceLost ≠ VkResult.eSuboptimalKHR) ∨
       (VkResult.eErrorDeviceLost = VkResult.eSuccess ∧
        VkResult.eSuccess ≠ VkResult.eSuccess ∧
        VkResult.eSuccess ≠ VkResult.eErrorOutOfDateKHR ∧
        VkResult.eSuccess ≠ VkResult.eSuboptimalKHR))) ∧
    ((drawFrame sampleState ⟨VkResult.eErrorDeviceLost, 0, VkResult.eSuccess⟩).events.countP isRebuild = 1 ↔
      ((VkResult.eErrorDeviceLost = VkResult.eErrorOutOfDateKHR ∨
        VkResult.eErrorDeviceLost = VkResult.eSuboptimalKHR) ∨
       (VkResult.eErrorDeviceLost = VkResult.eSuccess ∧
        (VkResult.eSuccess = VkResult.eErrorOutOfDateKHR ∨
         VkResult.eSuccess = VkResult.eSuboptimalKHR)))) ∧
    (∀ msg, mainEntry (Except.error msg) = (EXIT_FAILURE, some msg)) :=
  recoverable_results_exactly_two sampleState
    ⟨VkResult.eErrorDeviceLost, 0, VkResult.eSuccess⟩ rfl

/-- C7: a `drawFrame` cycle performs exactly one swapchain rebuild when a
resize or stale-swapchain signal occurs during it (framebufferResized set,
out-of-date or suboptimal at acquire, or out-of-date or suboptimal at
present) and none otherwise; moreover the rebuild is the last action of
the cycle, so it completes before any later present. -/
theorem rebuild_exactly_one_per_signal (s : AppState) (inp : FrameInput) :
    ((drawFrame s inp).events.countP isRebuild =
      if cycleSignal s inp then 1 else 0) ∧
    (Event.rebuild ∈ (drawFrame s inp).events →
      (drawFrame s inp).events.getLast? = some Event.rebuild) := by
  obtain ⟨ar, ii, pr⟩ := inp
  by_cases hfb : s.framebufferResized = true
  · cases ar <;> cases pr <;>
      simp [drawFrame, cycleSignal, acquireRecoverable, hfb, isRebuild]
  · rw [Bool.not_eq_true] at hfb
    cases ar <;> cases pr <;>
      simp [drawFrame, cycleSignal, acquireRecoverable, hfb, isRebuild]

/-- Witness for C7 at a concrete input: a cycle whose acquire reports the
swapchain out-of-date performs exactly one rebuild, as its final action. -/
theorem rebuild_exactly_one_per_signal_witness :
    ((drawFrame sampleState ⟨VkResult.eErrorOutOfDateKHR, 0, VkResult.eSuccess⟩).events.countP isRebuild =
      if cycleSignal sampleState ⟨VkResult.eErrorOutOfDateKHR, 0, VkResult.eSuccess⟩ then 1 else 0) ∧
    (drawFrame sampleState ⟨VkResult.eErrorOutOfDateKHR, 0, VkResult.eSuccess⟩).events.getLast? =
      some Event.rebuild :=
  ⟨(rebuild_exactly_one_per_signal sampleState
      ⟨VkResult.eErrorOutOfDateKHR, 0, VkResult.eSuccess⟩).1,
   (rebuild_exactly_one_per_signal sampleState
      ⟨VkResult.eErrorOutOfDateKHR, 0, VkResult.eSuccess⟩).2 (by decide)⟩

/-- C8: the main loop exits only on the window-close signal (when the
window never reports close, the loop does not return), and when it does
exit, the run consists of setup, some number of poll/draw iterations, the
`device.waitIdle()` drain of all outstanding GPU work, and only then the
resource release of cleanup. -/
theorem runApp_exit_only_on_close (readings : List Bool) :
    (∀ evs, runApp readings = some evs →
      true ∈ readings ∧
      ∃ k, evs = LoopEvent.initWindow :: LoopEvent.initVulkan ::
            (loopIterations k ++ [LoopEvent.deviceWaitIdle, LoopEvent.cleanup])) ∧
    (true ∉ readings → runApp readings = none) := by
  constructor
  · intro evs hsome
    unfold runApp at hsome
    cases hrec : mainLoop readings with
    | none => rw [hrec] at hsome; exact absurd hsome (by simp)
    | some evs' =>
      rw [hrec] at hsome
      simp only [Option.some.injEq] at hsome
      obtain ⟨hmem, k, hk⟩ := (mainLoop_spec readings).1 evs' hrec
      subst hsome
      subst hk
      exact ⟨hmem, k, by simp⟩
  · intro hnot
    unfold runApp
    rw [(mainLoop_spec readings).2 hnot]

/-- Witness for C8 at a concrete input: the window reports close on the
second poll. -/
theorem runApp_exit_only_on_close_witness :
    true ∈ [false, true] ∧
    ∃ k, [LoopEvent.initWindow, LoopEvent.initVulkan, LoopEvent.pollEvents,
          LoopEvent.drawFrameCall, LoopEvent.deviceWaitIdle, LoopEvent.cleanup] =
      LoopEvent.initWindow :: LoopEvent.initVulkan ::
        (loopIterations k ++ [LoopEvent.deviceWaitIdle, LoopEvent.cleanup]) :=
  (runApp_exit_only_on_close [false, true]).1
    [LoopEvent.initWindow, LoopEvent.initVulkan, LoopEvent.pollEvents,
     LoopEvent.drawFrameCall, LoopEvent.deviceWaitIdle, LoopEvent.cleanup] (by decide)

/-- C10: for surface capabilities satisfying the Vulkan guarantee that a
nonzero maximum image count is at least the minimum image count, the image
count createSwapChain requests never falls below the surface minimum and
never exceeds a nonzero surface maximum. -/
theorem createSwapChainImageCount_bounds (caps : SurfaceCapabilities)
    (hvalid : caps.maxImageCount = 0 ∨ caps.minImageCount ≤ caps.maxImageCount) :
    caps.minImageCount ≤ createSwapChainImageCount caps ∧
    (0 < caps.maxImageCount → createSwapChainImageCount caps ≤ caps.maxImageCount) := by
  unfold createSwapChainImageCount
  dsimp only
  split <;> omega

/-- Witness for C10 at a concrete input: a surface reporting minimum 2 and
maximum 5 images. -/
theorem createSwapChainImageCount_bounds_witness :
    (SurfaceCapabilities.mk 2 5).minImageCount ≤
      createSwapChainImageCount (SurfaceCapabilities.mk 2 5) ∧
    (0 < (SurfaceCapabilities.mk 2 5).maxImageCount →
      createSwapChainImageCount (SurfaceCapabilities.mk 2 5) ≤
        (SurfaceCapabilities.mk 2 5).maxImageCount) :=
  createSwapChainImageCount_bounds (SurfaceCapabilities.mk 2 5) (Or.inr (by decide))

end HelloTriangle
